import Mathlib

/-!
# Portfolio blotter streaming state aggregator — verification development

Shallow embedding of the streaming state aggregator of `src/app.py`
(`PortfolioState` and the message router `RedisSubscriber.handle_message`).

Modelling conventions:
* Python floats are idealised as rationals (`ℚ`); `round(x, 2)` is modelled
  as exact round-half-to-even to 2 decimal places on the rational value.
* Event records are Python dicts with string keys and scalar values
  (number, string, `None`) — the field shapes this repository's events carry.
  Dict keys must be hashable in Python, so map keys are scalar values.
* `datetime.now()` is modelled by an explicit `now : Nat` tick passed to each
  operation; `isoformat()` / `strftime` render it as `toString now`.
* Diagnostic log text is abbreviated to a stable prefix per call site (the
  payload reprs interpolated by the source are elided); only the presence and
  count of entries is relied upon.
* A method either returns normally or lets a raised exception escape; both
  outcomes carry the state as the method left it, since Python mutates the
  shared dicts in place before the raising statement.
* `json.loads` is Python stdlib, not repository code: the router is given the
  parse outcome of the wire string, and the parse outcome of the second-layer
  string when the first yields a string, as inputs (`Option Payload`, `none`
  meaning `json.JSONDecodeError`).
-/

/-- A scalar Python/JSON value as carried by the event records of this
repository: a number, a string, or `None`/`null`. -/
inductive Value where
  | num (q : ℚ)
  | str (s : String)
  | null
deriving DecidableEq

/-- Python truthiness (`if v:`) for scalar values: `None`, `0` and `""` are
falsy. -/
def Value.truthy : Value → Bool
  | .num q => q ≠ 0
  | .str s => s ≠ ""
  | .null => false

/-- Whether the value is a Python number (supports `abs` and `"{:.2f}"`
formatting). -/
def Value.isNum : Value → Bool
  | .num _ => true
  | _ => false

/-- Python `v != 0` for scalar values: comparing a non-number against `0`
yields `True` (no exception). -/
def pyNeZero : Value → Bool
  | .num q => q ≠ 0
  | _ => true

/-- Digit-string to natural number. -/
def digitsVal (l : List Char) : ℕ :=
  l.foldl (fun a c => a * 10 + (c.toNat - 48)) 0

/-- Python `float(s)` on a plain decimal string literal: optional sign,
digits, optional fractional part. Exponent/`inf`/`nan` spellings are outside
the modelled input space; non-numeric strings yield `none` (`ValueError`). -/
def strFloat? (s : String) : Option ℚ :=
  let core := fun (l : List Char) (neg : Bool) =>
    let ip := l.takeWhile (·.isDigit)
    let rest := l.drop ip.length
    let val? : Option ℚ :=
      match rest with
      | [] => if ip.isEmpty then none else some (digitsVal ip)
      | '.' :: fp =>
          if fp.all (·.isDigit) ∧ (¬ ip.isEmpty ∨ ¬ fp.isEmpty) then
            some ((digitsVal ip : ℚ) + (digitsVal fp : ℚ) / (10 : ℚ) ^ fp.length)
          else none
      | _ => none
    val?.map (fun q => if neg then -q else q)
  match s.toList with
  | '-' :: rest => core rest true
  | '+' :: rest => core rest false
  | cs => core cs false

/-- Python `float(v)`: numbers pass through, numeric strings parse, anything
else raises `TypeError`/`ValueError` (modelled as `none`; the call sites in
`app.py` catch exactly these). -/
def pyFloat? : Value → Option ℚ
  | .num q => some q
  | .str s => strFloat? s
  | .null => none

/-- Python `round(x, 2)` (round half to even), on the rational idealisation. -/
def roundHalfEven (x : ℚ) : ℤ :=
  let f : ℤ := x.floor
  if x - f < 1/2 then f
  else if (1 : ℚ)/2 < x - f then f + 1
  else if f % 2 = 0 then f else f + 1

/-- Round to 2 decimal places, as `round(x, 2)` in `app.py`. -/
def round2 (x : ℚ) : ℚ := (roundHalfEven (x * 100) : ℚ) / 100

/-- A Python dict with string keys and scalar values (an event record such as
a position, order, execution or quote). -/
abbrev PyRec := List (String × Value)

/-- First binding of a key, `none` when absent. -/
def PyRec.get? : PyRec → String → Option Value
  | [], _ => none
  | (k, v) :: rest, key => if k = key then some v else PyRec.get? rest key

/-- Python `d.get(key)` (default `None`). -/
def PyRec.get (r : PyRec) (key : String) : Value :=
  (PyRec.get? r key).getD .null

/-- Python `d.get(key, dflt)`. -/
def PyRec.getD (r : PyRec) (key : String) (dflt : Value) : Value :=
  (PyRec.get? r key).getD dflt

/-- Python `d[key] = v`: replace the binding in place, or append it. -/
def PyRec.set : PyRec → String → Value → PyRec
  | [], key, v => [(key, v)]
  | (k, w) :: rest, key, v =>
      if k = key then (key, v) :: rest else (k, w) :: PyRec.set rest key v

/-- A Python dict keyed by a scalar (symbol or client order id) holding event
records: `positions`, `orders`, `market_data` in `PortfolioState`. -/
abbrev PyDict := List (Value × PyRec)

/-- `key in d` / `d[key]` lookup. -/
def PyDict.get? : PyDict → Value → Option PyRec
  | [], _ => none
  | (k, r) :: rest, key => if k = key then some r else PyDict.get? rest key

/-- `d[key] = r`. -/
def PyDict.set : PyDict → Value → PyRec → PyDict
  | [], key, r => [(key, r)]
  | (k, w) :: rest, key, r =>
      if k = key then (key, r) :: rest else (k, w) :: PyDict.set rest key r

/-- A Python object as passed through the message router: a scalar, a dict
with scalar fields, or some other object (array, deeper nesting) — the
two-level payload shapes this repository's events use. -/
inductive PyAny where
  | scalar (v : Value)
  | dict (r : PyRec)
  | other
deriving DecidableEq

/-- The mutable aggregator state of `PortfolioState.__init__` (app.py 48-57):
positions / orders / market-data maps, the bounded executions deque
(`maxlen=100`), the global last-update timestamp and the bounded diagnostic
log deque (`maxlen=50`). The connectivity flag and `portfolio_summary` are
owned by the transport/bootstrap glue and touched by no modelled operation. -/
structure PortfolioState where
  positions : PyDict
  executions : List PyAny
  orders : PyDict
  market_data : PyDict
  last_update : Option Nat
  update_log : List String
deriving DecidableEq

/-- The empty initial state built by `PortfolioState.__init__`. -/
def PortfolioState.init : PortfolioState :=
  { positions := [], executions := [], orders := [], market_data := []
    last_update := none, update_log := [] }

/-- `log_update` (app.py 59-63): prepend a timestamped line to the bounded
diagnostic deque (`maxlen=50`, oldest evicted). -/
def PortfolioState.log_update (s : PortfolioState) (now : Nat) (msg : String) :
    PortfolioState :=
  { s with update_log := (s!"[{now}] {msg}" :: s.update_log).take 50 }

/-- Outcome of one engine call: a normal return, or a raised exception
escaping the method. Either constructor carries the state as the method left
it — Python mutates the shared dicts in place, so mutations performed before
a raising statement persist. -/
inductive PyResult where
  | ok (s : PortfolioState)
  | exn (s : PortfolioState)
deriving DecidableEq

/-- The state carried by either outcome. -/
def PyResult.state : PyResult → PortfolioState
  | .ok s => s
  | .exn s => s

/-- `update_position` (app.py 65-72): requires a truthy `symbol`; stores the
record wholesale keyed by symbol, sets the global timestamp and logs. A falsy
or missing symbol falls through silently (no `else` branch in the source).
Calling it on a non-dict raises `AttributeError` at `.get` before any
mutation. -/
def update_position (now : Nat) (pd : PyAny) (s : PortfolioState) : PyResult :=
  match pd with
  | .dict r =>
      let symbol := PyRec.get r "symbol"
      if symbol.truthy then
        .ok (({ s with positions := PyDict.set s.positions symbol r,
                       last_update := some now }).log_update now "Position updated")
      else .ok s
  | _ => .exn s

/-- `avg_cost` extraction in `update_market_data` (app.py 105-110):
`float(avg_cost) if avg_cost else 0`, with `TypeError`/`ValueError` caught
to `0`; a falsy, missing or non-numeric `avgCost` contributes `0` without
mutating the stored record. -/
def avgCostOf (pos : PyRec) : ℚ :=
  let a := PyRec.getD pos "avgCost" (.num 0)
  if a.truthy then (pyFloat? a).getD 0 else 0

/-- `update_market_data` (app.py 74-141), translated branch for branch:
missing/falsy symbol → log and return; `price is None` → log and return;
`float(price)` failure → log and return; otherwise the quote (with coerced
price and `receivedAt`) is stored, and if a position exists for the symbol
its `currentPrice` is overwritten in place, derived fields are recomputed
when the quantity is a nonzero number, `lastUpdated` is refreshed and the
global timestamp set. A non-numeric quantity raises `TypeError` at
`abs(quantity)` (line 118) after the quote store and `currentPrice`
overwrite; a zero quantity with a non-numeric stored `unrealizedPnl` raises
`TypeError` at the `:.2f` format of the log line (136) after `lastUpdated`
was set but before the global timestamp. -/
def update_market_data (now : Nat) (mdv : PyAny) (s : PortfolioState) :
    PyResult :=
  match mdv with
  | .dict md =>
      let symbol := PyRec.get md "symbol"
      if symbol.truthy then
        let price := PyRec.get md "price"
        if price = .null then
          .ok (s.log_update now "Market data missing price")
        else
          match pyFloat? price with
          | none => .ok (s.log_update now "Invalid price")
          | some p =>
              let md1 := PyRec.set (PyRec.set md "price" (.num p))
                           "receivedAt" (.str (toString now))
              let s1 := { s with market_data := PyDict.set s.market_data symbol md1 }
              match PyDict.get? s1.positions symbol with
              | some pos =>
                  let quantity := PyRec.getD pos "quantity" (.num 0)
                  let pos1 := PyRec.set pos "currentPrice" (.num p)
                  let s2 := { s1 with positions := PyDict.set s1.positions symbol pos1 }
                  if pyNeZero quantity then
                    match quantity with
                    | .num q =>
                        let mv := p * |q|
                        let tc := avgCostOf pos * |q|
                        let pnl := if 0 < q then mv - tc else tc - mv
                        let pos2 := PyRec.set (PyRec.set (PyRec.set pos1
                          "marketValue" (.num (round2 mv)))
                          "unrealizedPnl" (.num (round2 pnl)))
                          "totalCost" (.num (round2 tc))
                        let pos3 := PyRec.set pos2 "lastUpdated" (.str (toString now))
                        let s3 := { s2 with positions := PyDict.set s2.positions symbol pos3 }
                        if (PyRec.getD pos3 "unrealizedPnl" (.num 0)).isNum then
                          .ok { s3.log_update now "Position price updated"
                                  with last_update := some now }
                        else .exn s3
                    | _ => .exn s2
                  else
                    let pos3 := PyRec.set pos1 "lastUpdated" (.str (toString now))
                    let s3 := { s2 with positions := PyDict.set s2.positions symbol pos3 }
                    if (PyRec.getD pos3 "unrealizedPnl" (.num 0)).isNum then
                      .ok { s3.log_update now "Position price updated"
                              with last_update := some now }
                    else .exn s3
              | none =>
                  .ok { s1.log_update now "Market data no position"
                          with last_update := some now }
      else .ok (s.log_update now "Market data missing symbol")
  | _ => .exn s

/-- `add_execution` (app.py 143-148): unconditionally `appendleft` onto the
bounded deque (`maxlen=100`, oldest evicted), set the global timestamp, log.
A non-dict record is still appended and the timestamp still set before the
log line's `.get` raises `AttributeError`. -/
def add_execution (now : Nat) (x : PyAny) (s : PortfolioState) : PyResult :=
  let s1 := { s with executions := (x :: s.executions).take 100,
                     last_update := some now }
  match x with
  | .dict _ => .ok (s1.log_update now "Execution")
  | _ => .exn s1

/-- `update_order` (app.py 150-157): requires a truthy `clOrdId`; stores the
record wholesale keyed by it, sets the global timestamp and logs. A falsy or
missing id falls through silently (no `else` branch in the source). -/
def update_order (now : Nat) (od : PyAny) (s : PortfolioState) : PyResult :=
  match od with
  | .dict r =>
      let cl := PyRec.get r "clOrdId"
      if cl.truthy then
        .ok (({ s with orders := PyDict.set s.orders cl r,
                       last_update := some now }).log_update now "Order")
      else .ok s
  | _ => .exn s

/-- A decoded JSON payload as inspected by the router: a string (another
encoding layer), a dict (envelope with `type`/`data` fields), or some other
JSON value (number, null, array). -/
inductive Payload where
  | pstr (s : String)
  | pdict (fields : List (String × PyAny))
  | pnondict
deriving DecidableEq

/-- Lookup in an envelope's field list. -/
def envGet? : List (String × PyAny) → String → Option PyAny
  | [], _ => none
  | (k, v) :: rest, key => if k = key then some v else envGet? rest key

/-- Run an engine call from the router: a raised exception is caught by the
generic handler at app.py 292-293 and logged as a message handling error. -/
def runGuarded (now : Nat) (r : PyResult) : PortfolioState :=
  match r with
  | .ok s => s
  | .exn s => s.log_update now "Message handling error"

/-- `RedisSubscriber.handle_message` (app.py 258-293). `parse1` is the
outcome of `json.loads` on the wire data; when it yields a string, `parse2`
is the outcome of `json.loads` on that string (`none` = `JSONDecodeError`,
logged as a JSON parse error). A payload that is still not a dict after
unwrapping gets `msg_type = ''` and `msg_data = {}` (line 270-271) and falls
through every route untouched and unlogged. -/
def handle_message (channel : String) (parse1 parse2 : Option Payload)
    (now : Nat) (s : PortfolioState) : PortfolioState :=
  match parse1 with
  | none => s.log_update now "JSON parse error"
  | some p0 =>
      let payload? : Option Payload :=
        match p0 with
        | .pstr _ => parse2
        | _ => some p0
      match payload? with
      | none => s.log_update now "JSON parse error"
      | some payload =>
          let msg_type : PyAny :=
            match payload with
            | .pdict f => (envGet? f "type").getD (.scalar (.str ""))
            | _ => .scalar (.str "")
          let msg_data : PyAny :=
            match payload with
            | .pdict f => (envGet? f "data").getD (.dict [])
            | _ => .dict []
          if channel = "positions:updates" then
            if msg_type = .scalar (.str "POSITION_UPDATE") then
              runGuarded now (update_position now msg_data s)
            else s
          else if channel = "executions:updates" then
            if msg_type = .scalar (.str "EXECUTION") then
              runGuarded now (add_execution now msg_data s)
            else s
          else if channel = "orders:updates" then
            match msg_data with
            | .dict r => if r ≠ [] then runGuarded now (update_order now msg_data s) else s
            | _ => s
          else if channel = "marketdata:updates" then
            if msg_type = .scalar (.str "MARKET_DATA") then
              runGuarded now (update_market_data now msg_data s)
            else s
          else s

/-- Concrete long-position scenario of spec §8: AAPL, quantity 100, average
cost 150, quote price 160. -/
def posAAPL : PyRec :=
  [("symbol", .str "AAPL"), ("quantity", .num 100), ("avgCost", .num 150)]

/-- A state holding only the AAPL position above. -/
def stAAPL : PortfolioState :=
  { PortfolioState.init with positions := [(.str "AAPL", posAAPL)] }

/-! ## Lemmas about record and dict updates -/

theorem PyRec.get?_set_self (r : PyRec) (k : String) (v : Value) :
    PyRec.get? (PyRec.set r k v) k = some v := by
  induction r with
  | nil => simp [PyRec.set, PyRec.get?]
  | cons hd tl ih =>
      obtain ⟨k2, w⟩ := hd
      by_cases h : k2 = k <;> simp [PyRec.set, PyRec.get?, h, ih]

theorem PyRec.get?_set_ne (r : PyRec) (k k2 : String) (v : Value)
    (h : k2 ≠ k) : PyRec.get? (PyRec.set r k v) k2 = PyRec.get? r k2 := by
  induction r with
  | nil => simp [PyRec.set, PyRec.get?, Ne.symm h]
  | cons hd tl ih =>
      obtain ⟨k3, w⟩ := hd
      by_cases h3 : k3 = k
      · subst h3
        simp [PyRec.set, PyRec.get?, Ne.symm h]
      · simp [PyRec.set, PyRec.get?, h3, ih]

theorem PyRec.get_set_self (r : PyRec) (k : String) (v : Value) :
    PyRec.get (PyRec.set r k v) k = v := by
  simp [PyRec.get, PyRec.get?_set_self]

theorem PyRec.get_set_ne (r : PyRec) (k k2 : String) (v : Value)
    (h : k2 ≠ k) : PyRec.get (PyRec.set r k v) k2 = PyRec.get r k2 := by
  simp [PyRec.get, PyRec.get?_set_ne r k k2 v h]

theorem PyRec.getD_set_self (r : PyRec) (k : String) (v d : Value) :
    PyRec.getD (PyRec.set r k v) k d = v := by
  simp [PyRec.getD, PyRec.get?_set_self]

theorem PyRec.getD_set_ne (r : PyRec) (k k2 : String) (v d : Value)
    (h : k2 ≠ k) : PyRec.getD (PyRec.set r k v) k2 d = PyRec.getD r k2 d := by
  simp [PyRec.getD, PyRec.get?_set_ne r k k2 v h]

theorem PyDict.get?_setkey_self (d : PyDict) (k : Value) (r : PyRec) :
    PyDict.get? (PyDict.set d k r) k = some r := by
  induction d with
  | nil => simp [PyDict.set, PyDict.get?]
  | cons hd tl ih =>
      obtain ⟨k2, w⟩ := hd
      by_cases h : k2 = k <;> simp [PyDict.set, PyDict.get?, h, ih]

theorem PyDict.get?_setkey_ne (d : PyDict) (k k2 : Value) (r : PyRec)
    (h : k2 ≠ k) : PyDict.get? (PyDict.set d k r) k2 = PyDict.get? d k2 := by
  induction d with
  | nil => simp [PyDict.set, PyDict.get?, Ne.symm h]
  | cons hd tl ih =>
      obtain ⟨k3, w⟩ := hd
      by_cases h3 : k3 = k
      · subst h3
        simp [PyDict.set, PyDict.get?, Ne.symm h]
      · simp [PyDict.set, PyDict.get?, h3, ih]

/-! ## Claims -/

/-- C5: the execution sequence never exceeds 100 entries and every
`add_execution` prepends the new record at the head; after inserting 101
executions into a fresh state, the 1st-inserted execution is absent and the
101st is at the head. -/
theorem c5_executions_bounded :
    (∀ (now : Nat) (x : PyAny) (s : PortfolioState),
        (add_execution now x s).state.executions.length ≤ 100 ∧
        (add_execution now x s).state.executions.head? = some x) ∧
    ((List.range 101).foldl
        (fun st k => (add_execution k (PyAny.dict [("seq", Value.num k)]) st).state)
        PortfolioState.init).executions.head? =
      some (PyAny.dict [("seq", Value.num 100)]) ∧
    PyAny.dict [("seq", Value.num 0)] ∉
      ((List.range 101).foldl
        (fun st k => (add_execution k (PyAny.dict [("seq", Value.num k)]) st).state)
        PortfolioState.init).executions := by
  refine ⟨fun now x s => ⟨?_, ?_⟩, ?_, ?_⟩
  · cases x <;>
      simp [add_execution, PyResult.state, PortfolioState.log_update, List.length_take]
  · cases x <;> simp [add_execution, PyResult.state, PortfolioState.log_update]
  · decide
  · decide

/-- C1: an `update_market_data` call with a numeric price (0 included) on a
symbol whose stored position has a numeric nonzero quantity succeeds and
stores `marketValue = round2 (price * |quantity|)`,
`totalCost = round2 (avgCost * |quantity|)` with `avgCost` read through
`avgCostOf` (0 when missing, falsy or non-numeric), and
`unrealizedPnl = round2` of `marketValue - totalCost` for longs and
`totalCost - marketValue` for shorts (the rounding applied to the unrounded
difference), leaving the stored `avgCost` unmutated. -/
theorem c1_quote_pnl (now : Nat) (md pos : PyRec) (s : PortfolioState)
    (symv : Value) (p q : ℚ)
    (hsym : PyRec.get md "symbol" = symv) (hts : symv.truthy = true)
    (hpn : PyRec.get md "price" ≠ .null)
    (hpf : pyFloat? (PyRec.get md "price") = some p)
    (hpos : PyDict.get? s.positions symv = some pos)
    (hq : PyRec.getD pos "quantity" (.num 0) = .num q) (hq0 : q ≠ 0) :
    ∃ s2, update_market_data now (.dict md) s = .ok s2 ∧
      ∃ pos2, PyDict.get? s2.positions symv = some pos2 ∧
        PyRec.get pos2 "marketValue" = .num (round2 (p * |q|)) ∧
        PyRec.get pos2 "totalCost" = .num (round2 (avgCostOf pos * |q|)) ∧
        PyRec.get pos2 "unrealizedPnl" =
          .num (round2 (if 0 < q then p * |q| - avgCostOf pos * |q|
                        else avgCostOf pos * |q| - p * |q|)) ∧
        PyRec.get pos2 "avgCost" = PyRec.get pos "avgCost" := by
  simp [update_market_data, hsym, hts, hpn, hpf, hpos, hq, hq0, pyNeZero,
    Value.isNum, PyRec.getD_set_self, PyRec.getD_set_ne,
    PortfolioState.log_update, PyDict.get?_setkey_self, PyRec.get_set_self,
    PyRec.get_set_ne]

/-- Witness for C1 at the spec §8 long scenario. -/
theorem c1_quote_pnl_witness :
    PyRec.get [("symbol", .str "AAPL"), ("price", .num 160)] "symbol" = .str "AAPL" ∧
    (Value.str "AAPL").truthy = true ∧
    PyRec.get [("symbol", .str "AAPL"), ("price", .num 160)] "price" ≠ .null ∧
    pyFloat? (PyRec.get [("symbol", .str "AAPL"), ("price", .num 160)] "price") =
      some 160 ∧
    PyDict.get? stAAPL.positions (.str "AAPL") = some posAAPL ∧
    PyRec.getD posAAPL "quantity" (.num 0) = .num 100 ∧ ((100 : ℚ) ≠ 0) ∧
    (∃ s2, update_market_data 7
        (.dict [("symbol", .str "AAPL"), ("price", .num 160)]) stAAPL = .ok s2 ∧
      ∃ pos2, PyDict.get? s2.positions (.str "AAPL") = some pos2 ∧
        PyRec.get pos2 "marketValue" = .num (round2 (160 * |(100 : ℚ)|)) ∧
        PyRec.get pos2 "totalCost" = .num (round2 (avgCostOf posAAPL * |(100 : ℚ)|)) ∧
        PyRec.get pos2 "unrealizedPnl" =
          .num (round2 (if (0 : ℚ) < 100
                        then 160 * |(100 : ℚ)| - avgCostOf posAAPL * |(100 : ℚ)|
                        else avgCostOf posAAPL * |(100 : ℚ)| - 160 * |(100 : ℚ)|)) ∧
        PyRec.get pos2 "avgCost" = PyRec.get posAAPL "avgCost") :=
  ⟨rfl, by decide, by decide, rfl, rfl, rfl, by decide,
    c1_quote_pnl 7 _ posAAPL stAAPL (.str "AAPL") 160 100 rfl (by decide)
      (by decide) rfl rfl rfl (by decide)⟩

/-- C3: an `update_market_data` call whose price is missing (`None`) or
non-numeric leaves the stored positions and quotes (hence the prior Position
and Quote of that symbol) byte-for-byte unchanged, leaves orders, executions
and the global last-update timestamp unchanged, and changes only the
diagnostic log, which gains exactly one entry (the capacity-50 deque evicting
its oldest entry when full). -/
theorem c3_invalid_price_frame (now : Nat) (md : PyRec) (s : PortfolioState)
    (hpf : pyFloat? (PyRec.get md "price") = none) :
    ∃ m, update_market_data now (.dict md) s = .ok (s.log_update now m) ∧
      (s.log_update now m).positions = s.positions ∧
      (s.log_update now m).market_data = s.market_data ∧
      (s.log_update now m).orders = s.orders ∧
      (s.log_update now m).executions = s.executions ∧
      (s.log_update now m).last_update = s.last_update ∧
      (s.log_update now m).update_log = (s!"[{now}] {m}" :: s.update_log).take 50 := by
  by_cases hts : (PyRec.get md "symbol").truthy = true
  · by_cases hpn : PyRec.get md "price" = .null
    · exact ⟨"Market data missing price",
        by simp [update_market_data, hts, hpn], rfl, rfl, rfl, rfl, rfl, rfl⟩
    · exact ⟨"Invalid price",
        by simp [update_market_data, hts, hpn, hpf], rfl, rfl, rfl, rfl, rfl, rfl⟩
  · exact ⟨"Market data missing symbol",
      by simp [update_market_data, hts], rfl, rfl, rfl, rfl, rfl, rfl⟩

/-- Witness for C3: a quote for symbol `X` with the non-numeric price
`"abc"` applied to the fresh state. -/
theorem c3_invalid_price_frame_witness :
    (PyRec.get [("symbol", Value.str "X"), ("price", Value.str "abc")] "symbol").truthy = true ∧
    pyFloat? (PyRec.get [("symbol", Value.str "X"), ("price", Value.str "abc")] "price") = none ∧
    ∃ m, update_market_data 4 (.dict [("symbol", Value.str "X"), ("price", Value.str "abc")])
        PortfolioState.init = .ok (PortfolioState.init.log_update 4 m) ∧
      (PortfolioState.init.log_update 4 m).positions = PortfolioState.init.positions ∧
      (PortfolioState.init.log_update 4 m).market_data = PortfolioState.init.market_data ∧
      (PortfolioState.init.log_update 4 m).orders = PortfolioState.init.orders ∧
      (PortfolioState.init.log_update 4 m).executions = PortfolioState.init.executions ∧
      (PortfolioState.init.log_update 4 m).last_update = PortfolioState.init.last_update ∧
      (PortfolioState.init.log_update 4 m).update_log =
        (s!"[{4}] {m}" :: PortfolioState.init.update_log).take 50 :=
  ⟨by decide, by decide, c3_invalid_price_frame 4 _ PortfolioState.init (by decide)⟩

/-- C7: an `update_market_data` call with a valid numeric price on a symbol
whose stored position has quantity `0` leaves the position's derived fields
`marketValue`, `unrealizedPnl` and `totalCost` (present or absent) exactly as
they were — closed positions are not repriced. This holds whether the call
returns normally or raises at the subsequent log line. -/
theorem c7_zero_qty_derived_frame (now : Nat) (md pos : PyRec)
    (s : PortfolioState) (symv : Value) (p : ℚ)
    (hsym : PyRec.get md "symbol" = symv) (hts : symv.truthy = true)
    (hpn : PyRec.get md "price" ≠ .null)
    (hpf : pyFloat? (PyRec.get md "price") = some p)
    (hpos : PyDict.get? s.positions symv = some pos)
    (hq : PyRec.getD pos "quantity" (.num 0) = .num 0) :
    ∃ pos2, PyDict.get? (update_market_data now (.dict md) s).state.positions symv
        = some pos2 ∧
      PyRec.get? pos2 "marketValue" = PyRec.get? pos "marketValue" ∧
      PyRec.get? pos2 "unrealizedPnl" = PyRec.get? pos "unrealizedPnl" ∧
      PyRec.get? pos2 "totalCost" = PyRec.get? pos "totalCost" := by
  simp [update_market_data, hsym, hts, hpn, hpf, hpos, hq, pyNeZero]
  split
  all_goals
    simp [PyResult.state, PortfolioState.log_update, PyDict.get?_setkey_self,
      PyRec.get?_set_ne]

/-- Witness for C7: symbol `Z`, stored quantity `0` with a stored
`marketValue` of 5, quote price 9. -/
theorem c7_zero_qty_derived_frame_witness :
    (PyRec.get [("symbol", Value.str "Z"), ("price", Value.num 9)] "symbol"
      = Value.str "Z") ∧
    (Value.str "Z").truthy = true ∧
    PyRec.get [("symbol", Value.str "Z"), ("price", Value.num 9)] "price" ≠ .null ∧
    pyFloat? (PyRec.get [("symbol", Value.str "Z"), ("price", Value.num 9)] "price")
      = some 9 ∧
    PyDict.get? [(Value.str "Z",
        [("quantity", Value.num 0), ("marketValue", Value.num 5)])] (Value.str "Z")
      = some [("quantity", Value.num 0), ("marketValue", Value.num 5)] ∧
    PyRec.getD [("quantity", Value.num 0), ("marketValue", Value.num 5)]
        "quantity" (.num 0) = .num 0 ∧
    ∃ pos2, PyDict.get?
        (update_market_data 6 (.dict [("symbol", Value.str "Z"), ("price", Value.num 9)])
          { PortfolioState.init with positions := [(Value.str "Z",
              [("quantity", Value.num 0), ("marketValue", Value.num 5)])] }).state.positions
        (Value.str "Z") = some pos2 ∧
      PyRec.get? pos2 "marketValue" =
        PyRec.get? [("quantity", Value.num 0), ("marketValue", Value.num 5)] "marketValue" ∧
      PyRec.get? pos2 "unrealizedPnl" =
        PyRec.get? [("quantity", Value.num 0), ("marketValue", Value.num 5)] "unrealizedPnl" ∧
      PyRec.get? pos2 "totalCost" =
        PyRec.get? [("quantity", Value.num 0), ("marketValue", Value.num 5)] "totalCost" :=
  ⟨rfl, by decide, by decide, rfl, rfl, rfl,
    c7_zero_qty_derived_frame 6 _ _ _ (Value.str "Z") 9 rfl (by decide) (by decide)
      rfl rfl rfl⟩

/-- C9: the same call as C7 (valid numeric price, stored quantity `0`)
nevertheless overwrites the position's `currentPrice` with the new price and
refreshes its `lastUpdated` timestamp — only the three derived monetary
fields are preserved, not the whole record. -/
theorem c9_zero_qty_reprices_current (now : Nat) (md pos : PyRec)
    (s : PortfolioState) (symv : Value) (p : ℚ)
    (hsym : PyRec.get md "symbol" = symv) (hts : symv.truthy = true)
    (hpn : PyRec.get md "price" ≠ .null)
    (hpf : pyFloat? (PyRec.get md "price") = some p)
    (hpos : PyDict.get? s.positions symv = some pos)
    (hq : PyRec.getD pos "quantity" (.num 0) = .num 0) :
    ∃ pos2, PyDict.get? (update_market_data now (.dict md) s).state.positions symv
        = some pos2 ∧
      PyRec.get pos2 "currentPrice" = .num p ∧
      PyRec.get pos2 "lastUpdated" = .str (toString now) := by
  simp [update_market_data, hsym, hts, hpn, hpf, hpos, hq, pyNeZero]
  split
  all_goals
    simp [PyResult.state, PortfolioState.log_update, PyDict.get?_setkey_self,
      PyRec.get_set_self, PyRec.get_set_ne]

/-- Witness for C9: symbol `W`, stored quantity `0`, quote price 3. -/
theorem c9_zero_qty_reprices_current_witness :
    (PyRec.get [("symbol", Value.str "W"), ("price", Value.num 3)] "symbol"
      = Value.str "W") ∧
    (Value.str "W").truthy = true ∧
    PyRec.get [("symbol", Value.str "W"), ("price", Value.num 3)] "price" ≠ .null ∧
    pyFloat? (PyRec.get [("symbol", Value.str "W"), ("price", Value.num 3)] "price")
      = some 3 ∧
    PyDict.get? [(Value.str "W", [("quantity", Value.num 0), ("currentPrice", Value.num 1)])]
        (Value.str "W") = some [("quantity", Value.num 0), ("currentPrice", Value.num 1)] ∧
    PyRec.getD [("quantity", Value.num 0), ("currentPrice", Value.num 1)]
        "quantity" (.num 0) = .num 0 ∧
    ∃ pos2, PyDict.get?
        (update_market_data 8 (.dict [("symbol", Value.str "W"), ("price", Value.num 3)])
          { PortfolioState.init with positions := [(Value.str "W",
              [("quantity", Value.num 0), ("currentPrice", Value.num 1)])] }).state.positions
        (Value.str "W") = some pos2 ∧
      PyRec.get pos2 "currentPrice" = .num 3 ∧
      PyRec.get pos2 "lastUpdated" = .str (toString 8) :=
  ⟨rfl, by decide, by decide, rfl, rfl, rfl,
    c9_zero_qty_reprices_current 8 _ _ _ (Value.str "W") 3 rfl (by decide) (by decide)
      rfl rfl rfl⟩

/-- Witness for C5: a single insertion into the fresh state lands at the head
within the bound. -/
theorem c5_executions_bounded_witness :
    (add_execution 1 (PyAny.dict [("k", Value.num 2)]) PortfolioState.init).state.executions.length ≤ 100 ∧
    (add_execution 1 (PyAny.dict [("k", Value.num 2)]) PortfolioState.init).state.executions.head?
      = some (PyAny.dict [("k", Value.num 2)]) :=
  c5_executions_bounded.1 1 _ _

/-- Counterexample to C2 as stated: a quote with valid symbol and numeric
price on a position whose stored quantity is the non-numeric string `"x"`
raises `TypeError` at `abs(quantity)` (app.py line 118) after the quote has
been stored and the position's `currentPrice` overwritten — the previous
state is not retained and no typed-error rejection happens. -/
theorem c2_nonnumeric_qty_counterexample :
    update_market_data 2 (.dict [("symbol", Value.str "A"), ("price", Value.num 1)])
      { PortfolioState.init with positions :=
          [(Value.str "A", [("symbol", Value.str "A"), ("quantity", Value.str "x")])] }
      = .exn { PortfolioState.init with
          positions := [(Value.str "A",
            [("symbol", Value.str "A"), ("quantity", Value.str "x"),
             ("currentPrice", Value.num 1)])],
          market_data := [(Value.str "A",
            [("symbol", Value.str "A"), ("price", Value.num 1),
             ("receivedAt", Value.str "2")])] } := by rfl

/-- C2 amended: non-numeric *price* inputs are rejected fail-closed with only
a diagnostic log entry; but a quote with valid symbol and numeric price on a
position whose stored *quantity* is non-numeric raises (escaping the engine
method, caught only by the dispatch layer) and leaves a partially applied
update: the quote stored and `currentPrice` overwritten, everything else
unchanged. -/
theorem c2_nonnumeric_inputs_amended :
    (∀ (now : Nat) (md : PyRec) (s : PortfolioState),
        (PyRec.get md "symbol").truthy = true →
        pyFloat? (PyRec.get md "price") = none →
        ∃ m, update_market_data now (.dict md) s = .ok (s.log_update now m)) ∧
    (∀ (now : Nat) (md pos : PyRec) (s : PortfolioState) (symv : Value) (p : ℚ),
        PyRec.get md "symbol" = symv → symv.truthy = true →
        PyRec.get md "price" ≠ .null →
        pyFloat? (PyRec.get md "price") = some p →
        PyDict.get? s.positions symv = some pos →
        (PyRec.getD pos "quantity" (.num 0)).isNum = false →
        update_market_data now (.dict md) s = .exn
          { s with
            market_data := PyDict.set s.market_data symv
              (PyRec.set (PyRec.set md "price" (.num p)) "receivedAt"
                (.str (toString now))),
            positions := PyDict.set s.positions symv
              (PyRec.set pos "currentPrice" (.num p)) }) := by
  constructor
  · intro now md s hts hpf
    by_cases hpn : PyRec.get md "price" = .null
    · exact ⟨"Market data missing price", by simp [update_market_data, hts, hpn]⟩
    · exact ⟨"Invalid price", by simp [update_market_data, hts, hpn, hpf]⟩
  · intro now md pos s symv p hsym hts hpn hpf hpos hnn
    cases hqv : PyRec.getD pos "quantity" (.num 0) with
    | num q => rw [hqv] at hnn; simp [Value.isNum] at hnn
    | str t => simp [update_market_data, hsym, hts, hpn, hpf, hpos, hqv, pyNeZero]
    | null => simp [update_market_data, hsym, hts, hpn, hpf, hpos, hqv, pyNeZero]

/-- Witness for the amended C2: a non-numeric price is rejected log-only, and
a non-numeric stored quantity produces the partially-applied raising update. -/
theorem c2_nonnumeric_inputs_amended_witness :
    (PyRec.get [("symbol", Value.str "C"), ("price", Value.str "zz")] "symbol").truthy = true ∧
    pyFloat? (PyRec.get [("symbol", Value.str "C"), ("price", Value.str "zz")] "price") = none ∧
    (∃ m, update_market_data 3 (.dict [("symbol", Value.str "C"), ("price", Value.str "zz")])
        PortfolioState.init = .ok (PortfolioState.init.log_update 3 m)) ∧
    (PyRec.getD [("quantity", Value.str "y")] "quantity" (.num 0)).isNum = false ∧
    update_market_data 4 (.dict [("symbol", Value.str "D"), ("price", Value.num 5)])
      { PortfolioState.init with positions :=
          [(Value.str "D", [("quantity", Value.str "y")])] }
      = .exn
        { { PortfolioState.init with positions :=
              [(Value.str "D", [("quantity", Value.str "y")])] } with
          market_data := PyDict.set
            ({ PortfolioState.init with positions :=
                [(Value.str "D", [("quantity", Value.str "y")])] }).market_data
            (Value.str "D")
            (PyRec.set (PyRec.set [("symbol", Value.str "D"), ("price", Value.num 5)]
              "price" (.num 5)) "receivedAt" (.str (toString 4))),
          positions := PyDict.set
            ({ PortfolioState.init with positions :=
                [(Value.str "D", [("quantity", Value.str "y")])] }).positions
            (Value.str "D")
            (PyRec.set [("quantity", Value.str "y")] "currentPrice" (.num 5)) } :=
  ⟨by decide, by decide,
    c2_nonnumeric_inputs_amended.1 3 _ _ (by decide) (by decide),
    by decide,
    c2_nonnumeric_inputs_amended.2 4 _ _ _ (Value.str "D") 5 rfl (by decide)
      (by decide) rfl rfl (by decide)⟩

/-- Counterexample to C4 as stated: a payload whose first decode yields a
string and whose second decode also yields a string is dropped *silently* —
the state (diagnostic log included) is completely unchanged, not "dropped
with a logged decode error [and] exactly one diagnostic log entry". -/
theorem c4_third_layer_counterexample :
    handle_message "positions:updates" (some (.pstr "a")) (some (.pstr "b")) 3
      PortfolioState.init = PortfolioState.init ∧
    PortfolioState.init.update_log = [] := ⟨rfl, rfl⟩

/-- C4 amended: when the outer decode yields a string, exactly one further
decode is attempted; if that second decode *fails to parse*, the event is
dropped with exactly one logged decode error and zero side effects; if it
*succeeds but still yields a string*, the event is dropped silently — zero
side effects and zero log entries (the non-dict payload gets an empty
type/data envelope and falls through every route). -/
theorem c4_two_layer_decode_amended :
    (∀ (ch : String) (now : Nat) (s : PortfolioState) (a : String),
        handle_message ch (some (.pstr a)) none now s =
          s.log_update now "JSON parse error") ∧
    (∀ (ch : String) (now : Nat) (s : PortfolioState) (a b : String),
        handle_message ch (some (.pstr a)) (some (.pstr b)) now s = s) := by
  constructor
  · intro ch now s a
    simp [handle_message]
  · intro ch now s a b
    simp [handle_message]

/-- Witness for the amended C4 on two concrete channels. -/
theorem c4_two_layer_decode_amended_witness :
    handle_message "orders:updates" (some (.pstr "x")) none 2 PortfolioState.init =
      PortfolioState.init.log_update 2 "JSON parse error" ∧
    handle_message "marketdata:updates" (some (.pstr "x")) (some (.pstr "y")) 2
      PortfolioState.init = PortfolioState.init :=
  ⟨c4_two_layer_decode_amended.1 "orders:updates" 2 PortfolioState.init "x",
   c4_two_layer_decode_amended.2 "marketdata:updates" 2 PortfolioState.init "x" "y"⟩

/-- Counterexample to C6 as stated: `update_position` on a record with no
`symbol` key drops the update and retains the prior state, but records *no*
diagnostic log entry — the source has no `else` branch (app.py 65-72). -/
theorem c6_silent_drop_counterexample :
    update_position 5 (.dict [("quantity", Value.num 3)]) PortfolioState.init
      = .ok PortfolioState.init ∧
    PortfolioState.init.update_log = [] := ⟨by decide, rfl⟩

/-- C6 amended: a missing/falsy required key drops the affected update and
retains the prior state for all three keyed operations, but only
`update_market_data` records a diagnostic log entry; `update_position` and
`update_order` drop silently, leaving the state (log included) unchanged. -/
theorem c6_missing_key_amended :
    (∀ (now : Nat) (pd : PyRec) (s : PortfolioState),
        (PyRec.get pd "symbol").truthy = false →
        update_position now (.dict pd) s = .ok s) ∧
    (∀ (now : Nat) (od : PyRec) (s : PortfolioState),
        (PyRec.get od "clOrdId").truthy = false →
        update_order now (.dict od) s = .ok s) ∧
    (∀ (now : Nat) (md : PyRec) (s : PortfolioState),
        (PyRec.get md "symbol").truthy = false →
        update_market_data now (.dict md) s =
          .ok (s.log_update now "Market data missing symbol")) := by
  refine ⟨?_, ?_, ?_⟩ <;> intro now r s h <;>
    simp [update_position, update_order, update_market_data, h]

/-- Witness for the amended C6 at concrete key-less records on `stAAPL`. -/
theorem c6_missing_key_amended_witness :
    (PyRec.get [("quantity", Value.num 3)] "symbol").truthy = false ∧
    (PyRec.get [("symbol", Value.str "A")] "clOrdId").truthy = false ∧
    (PyRec.get [("price", Value.num 1)] "symbol").truthy = false ∧
    update_position 5 (.dict [("quantity", Value.num 3)]) stAAPL = .ok stAAPL ∧
    update_order 5 (.dict [("symbol", Value.str "A")]) stAAPL = .ok stAAPL ∧
    update_market_data 5 (.dict [("price", Value.num 1)]) stAAPL =
      .ok (stAAPL.log_update 5 "Market data missing symbol") :=
  ⟨by decide, by decide, by decide,
   c6_missing_key_amended.1 5 _ stAAPL (by decide),
   c6_missing_key_amended.2.1 5 _ stAAPL (by decide),
   c6_missing_key_amended.2.2 5 _ stAAPL (by decide)⟩

/-- Helper: for a quote with truthy symbol and numeric price, a normal return
of `update_market_data` carries `last_update = some now`, while a raising
return leaves `last_update` untouched (the global timestamp at app.py 141 is
only reached on the non-raising paths). -/
theorem umd_last_update (now : Nat) (md : PyRec) (s : PortfolioState) (p : ℚ)
    (hts : (PyRec.get md "symbol").truthy = true)
    (hpn : PyRec.get md "price" ≠ .null)
    (hpf : pyFloat? (PyRec.get md "price") = some p) :
    (∀ s2, update_market_data now (.dict md) s = .ok s2 → s2.last_update = some now) ∧
    (∀ s2, update_market_data now (.dict md) s = .exn s2 →
        s2.last_update = s.last_update) := by
  constructor <;>
  · intro s2 h
    simp [update_market_data, hts, hpn, hpf] at h
    repeat' split at h
    all_goals first
      | (cases h; rfl)
      | simp_all

/-- Counterexample to C10 as stated: a quote with valid symbol `"B"` and
numeric price 2 (hence "successfully applied" per the claim's parenthetical)
on a position whose stored quantity is `None` raises before line 141, so the
global last-update timestamp stays `none` instead of being set. -/
theorem c10_timestamp_counterexample :
    (Value.str "B").truthy = true ∧
    pyFloat? (Value.num 2) = some 2 ∧
    (update_market_data 9 (.dict [("symbol", Value.str "B"), ("price", Value.num 2)])
        { PortfolioState.init with positions :=
            [(Value.str "B", [("quantity", Value.null)])] }).state.last_update = none :=
  ⟨by decide, rfl, rfl⟩

/-- C10 amended: every mutation that returns normally — `update_position`
with truthy symbol, `update_order` with truthy clOrdId, `add_execution`
unconditionally, `update_market_data` with truthy symbol and numeric price —
sets the global last-update timestamp to the call time; every rejected or
dropped update (falsy key, invalid price) leaves it unchanged, and an
`update_market_data` call that raises mid-update also leaves it unchanged. -/
theorem c10_last_update_amended :
    (∀ (now : Nat) (pd : PyRec) (s : PortfolioState),
        (PyRec.get pd "symbol").truthy = true →
        ∃ s2, update_position now (.dict pd) s = .ok s2 ∧ s2.last_update = some now) ∧
    (∀ (now : Nat) (pd : PyRec) (s : PortfolioState),
        (PyRec.get pd "symbol").truthy = false →
        update_position now (.dict pd) s = .ok s) ∧
    (∀ (now : Nat) (x : PyAny) (s : PortfolioState),
        (add_execution now x s).state.last_update = some now) ∧
    (∀ (now : Nat) (od : PyRec) (s : PortfolioState),
        (PyRec.get od "clOrdId").truthy = true →
        ∃ s2, update_order now (.dict od) s = .ok s2 ∧ s2.last_update = some now) ∧
    (∀ (now : Nat) (od : PyRec) (s : PortfolioState),
        (PyRec.get od "clOrdId").truthy = false →
        update_order now (.dict od) s = .ok s) ∧
    (∀ (now : Nat) (md : PyRec) (s : PortfolioState) (p : ℚ),
        (PyRec.get md "symbol").truthy = true →
        PyRec.get md "price" ≠ .null →
        pyFloat? (PyRec.get md "price") = some p →
        (∀ s2, update_market_data now (.dict md) s = .ok s2 →
            s2.last_update = some now) ∧
        (∀ s2, update_market_data now (.dict md) s = .exn s2 →
            s2.last_update = s.last_update)) ∧
    (∀ (now : Nat) (md : PyRec) (s : PortfolioState),
        (PyRec.get md "symbol").truthy = true →
        pyFloat? (PyRec.get md "price") = none →
        ∃ m, update_market_data now (.dict md) s = .ok (s.log_update now m) ∧
          (s.log_update now m).last_update = s.last_update) ∧
    (∀ (now : Nat) (md : PyRec) (s : PortfolioState),
        (PyRec.get md "symbol").truthy = false →
        update_market_data now (.dict md) s =
          .ok (s.log_update now "Market data missing symbol") ∧
        (s.log_update now "Market data missing symbol").last_update = s.last_update) := by
  refine ⟨?_, ?_, ?_, ?_, ?_, ?_, ?_, ?_⟩
  · intro now pd s h
    let t : PortfolioState :=
      { s with positions := PyDict.set s.positions (PyRec.get pd "symbol") pd
               last_update := some now }
    refine ⟨t.log_update now "Position updated", ?_, rfl⟩
    simp [update_position, h, t]
  · intro now pd s h
    simp [update_position, h]
  · intro now x s
    cases x <;> rfl
  · intro now od s h
    let t : PortfolioState :=
      { s with orders := PyDict.set s.orders (PyRec.get od "clOrdId") od
               last_update := some now }
    refine ⟨t.log_update now "Order", ?_, rfl⟩
    simp [update_order, h, t]
  · intro now od s h
    simp [update_order, h]
  · intro now md s p hts hpn hpf
    exact umd_last_update now md s p hts hpn hpf
  · intro now md s hts hpf
    by_cases hpn : PyRec.get md "price" = .null
    · exact ⟨"Market data missing price",
        by simp [update_market_data, hts, hpn], rfl⟩
    · exact ⟨"Invalid price", by simp [update_market_data, hts, hpn, hpf], rfl⟩
  · intro now md s h
    exact ⟨by simp [update_market_data, h], rfl⟩

/-- Witness for the amended C10: a truthy-symbol position update stamps the
timestamp; an execution always stamps it; a falsy-id order leaves the state
unchanged. -/
theorem c10_last_update_amended_witness :
    (PyRec.get [("symbol", Value.str "P")] "symbol").truthy = true ∧
    (∃ s2, update_position 11 (.dict [("symbol", Value.str "P")]) PortfolioState.init
        = .ok s2 ∧ s2.last_update = some 11) ∧
    (add_execution 12 (PyAny.dict [("symbol", Value.str "E")])
        PortfolioState.init).state.last_update = some 12 ∧
    (PyRec.get [("x", Value.num 1)] "clOrdId").truthy = false ∧
    update_order 13 (.dict [("x", Value.num 1)]) PortfolioState.init
      = .ok PortfolioState.init :=
  ⟨by decide,
   c10_last_update_amended.1 11 _ _ (by decide),
   c10_last_update_amended.2.2.1 12 _ _,
   by decide,
   c10_last_update_amended.2.2.2.2.1 13 _ _ (by decide)⟩
